import Mathlib

/-!
Verification development for the IssueGuardian repository
(`src/IssueGuardian.py`, with `src/UnassignedJSM.py` a near-duplicate
variant whose `ConfigValidator.validate`, `EmailReport.generate_email_body`
and `EmailReport.send` agree with the full-featured script on everything
modelled here).

The Python code is shallowly embedded: configparser data becomes an
association list of sections, each an association list of key/value pairs;
JIRA issue JSON becomes an `Issue` structure whose optional fields record
the distinction between an absent key, a JSON `null`, and a present value;
Python exceptions become `Except String`.
-/

set_option maxRecDepth 4096

/-- Models Python `sep.join(xs)`: the elements of `xs` joined with `sep`
between consecutive elements (empty string for the empty list). -/
def pyJoin (sep : String) : List String → String
  | [] => ""
  | [x] => x
  | x :: y :: xs => x ++ sep ++ pyJoin sep (y :: xs)

/-- Models Python `s.replace(c, rep)` for a one-character pattern `c`
(the only form the source uses: `.replace('\n', '<br>')`): every
occurrence of `c` in `s` is replaced by `rep`. -/
def pyReplace (s : String) (c : Char) (rep : String) : String :=
  String.join (s.data.map (fun ch => if ch = c then rep else String.singleton ch))

/-- Models Python `s.capitalize()`: first character upper-cased, all
remaining characters lower-cased (ASCII, which covers every priority
name the source styles). -/
def pyCapitalize (s : String) : String :=
  match s.data with
  | [] => ""
  | c :: cs => String.mk (c.toUpper :: cs.map Char.toLower)

/-! ## Settings model (`configparser` data)

A loaded configuration is a list of named sections, each a list of
key/value pairs, mirroring the loosely-typed section/key map the
source reads from `config.ini`. -/

def Config : Type := List (String × List (String × String))

/-- Models `section in config` / `config[section]`: the first section
with the given name, if any. -/
def findSection (c : Config) (s : String) : Option (List (String × String)) :=
  (List.find? (fun p => p.1 == s) c).map (fun p => p.2)

/-- Models `key in config[section]` on a section's key/value pairs. -/
def hasKey (sec : List (String × String)) (k : String) : Bool :=
  sec.any (fun p => p.1 == k)

/-- Models `config[section][key]`: `Except.error` stands for the
`KeyError` Python raises when the section or key is absent. -/
def configGet (c : Config) (s k : String) : Except String String :=
  match findSection c s with
  | none => Except.error ("KeyError: " ++ s)
  | some sec =>
    match List.find? (fun p => p.1 == k) sec with
    | none => Except.error ("KeyError: " ++ k)
    | some p => Except.ok p.2

/-- The required keys of the `jira` section (`ConfigValidator.validate`). -/
def jiraKeys : List String := ["server", "jira_ticket_base_url", "username", "password"]

/-- The required keys of the `email` section (`ConfigValidator.validate`). -/
def emailKeys : List String :=
  ["sender", "smtp_server", "smtp_port", "smtp_username", "smtp_password", "recipient"]

/-- The `required_settings` dict of `ConfigValidator.validate`. -/
def required_settings : List (String × List String) :=
  [("jira", jiraKeys), ("email", emailKeys)]

/-- The contribution of one required section to `missing_settings` in
`ConfigValidator.validate`: a missing section adds one
`Missing section:` entry and its keys are skipped (`continue`); for a
present section each absent key adds one `Missing setting:` entry. -/
def sectionMissing (c : Config) (s : String) (ks : List String) : List String :=
  match findSection c s with
  | none => ["Missing section: " ++ s]
  | some sec =>
    (ks.filter (fun k => !(hasKey sec k))).map
      (fun k => "Missing setting: " ++ s ++ "/" ++ k)

/-- The full `missing_settings` list accumulated by
`ConfigValidator.validate`, in the loop's order. -/
def missingSettings (c : Config) : List String :=
  (required_settings.map (fun sk => sectionMissing c sk.1 sk.2)).flatten

/-- `ConfigValidator.validate`: raises `ValueError` (here `Except.error`)
with the aggregated message when anything is missing, otherwise succeeds. -/
def validate (config : Config) : Except String Unit :=
  if (missingSettings config).isEmpty then Except.ok ()
  else Except.error
    ("Configuration validation failed:\n" ++ pyJoin "\n" (missingSettings config))

/-- Modelled from the spec: every required section is present and every
required key is present in it. This is the presence half of the spec's
Settings invariant; it is the condition `validate` actually establishes. -/
def allRequiredPresent (c : Config) : Bool :=
  required_settings.all (fun sk =>
    match findSection c sk.1 with
    | none => false
    | some sec => sk.2.all (fun k => hasKey sec k))

/-- Modelled from the spec: every required key is present AND carries a
non-empty value ("all eight fields must be present and non-empty").
`validate` does not check the non-emptiness half. -/
def allRequiredPresentNonEmpty (c : Config) : Bool :=
  required_settings.all (fun sk =>
    match findSection c sk.1 with
    | none => false
    | some sec => sk.2.all (fun k =>
        match List.find? (fun p => p.1 == k) sec with
        | none => false
        | some p => !(p.2 == "")))

/-! ## Issue model

One JIRA issue as `EmailReport.generate_email_body` reads it. The
optional JSON fields record the distinction Python's `dict.get` sees:
a key can be absent, present with value `null`, or present with a
value. -/

/-- The `description` field of `issue['fields']`: absent key, present
`null` (Python `None`), or a present string. -/
inductive DescField where
  | absent
  | null
  | str (s : String)
deriving DecidableEq

/-- The `customfield_10002` organization field of `issue['fields']`:
absent key, a scalar string, or a list of organization entries, each
entry possibly lacking its `name` key. -/
inductive OrgField where
  | absent
  | scalar (s : String)
  | list (orgs : List (Option String))
deriving DecidableEq

/-- The parts of an issue record that `generate_email_body` reads. -/
structure Issue where
  key : String
  summary : String
  priorityName : String
  organization : OrgField
  reporterDisplayName : String
  description : DescField
deriving DecidableEq

/-- Models `issue['fields'].get('description', 'No description provided')`:
the default only fills in for an absent key; a present `null` comes back
as Python `None` (here `Option.none`). -/
def descGet : DescField → Option String
  | DescField.absent => some "No description provided"
  | DescField.null => none
  | DescField.str s => some s

/-- Models `issue['fields'].get('description', ...).replace('\n', '<br>')`:
on `None` the `.replace` attribute access raises `AttributeError`. -/
def renderDescription (d : DescField) : Except String String :=
  match descGet d with
  | none => Except.error "AttributeError: NoneType object has no attribute replace"
  | some s => Except.ok (pyReplace s '\n' "<br>")

/-- Models `issue['fields'].get('customfield_10002', 'N/A')`: `inl` is a
non-list value (the `'N/A'` default or a scalar), `inr` a list of
organization entries. -/
def orgFieldValue : OrgField → Sum String (List (Option String))
  | OrgField.absent => Sum.inl "N/A"
  | OrgField.scalar s => Sum.inl s
  | OrgField.list l => Sum.inr l

/-- Models the `organization_names` expression: if the field value is a
list, each entry's `org.get('name', 'Unknown')` joined with `', '`;
otherwise the value itself. -/
def organizationNames (f : OrgField) : String :=
  match orgFieldValue f with
  | Sum.inl s => s
  | Sum.inr l => pyJoin ", " (l.map (fun org => org.getD "Unknown"))

/-! ## Report renderer (`EmailReport.generate_email_body`)

The HTML text is transcribed from the f-strings of
`src/IssueGuardian.py` (lines 196-233 for the header, 259-311 for the
per-issue section, with `\x7b`/`\x7d` writing the literal braces the
doubled `{{`/`}}` produce and `\x27` the apostrophes). -/

/-- The fixed header of the report: everything `generate_email_body`
puts into `html_body` before the issue loop, with the render-time date
interpolated. -/
def htmlHeader (current_date : String) : String :=
  "\n"
  ++ "        <html>\n"
  ++ "        <!-- Begin of email body -->\n"
  ++ "        <head>\n"
  ++ "            <style>\n"
  ++ "                /* CSS styles for the email body */\n"
  ++ "                body \x7b font-family: \x27Segoe UI\x27, Tahoma, Consolas, \x27Ubuntu\x27, Geneva, Verdana, sans-serif; \x7d\n"
  ++ "                .hrdotted \x7b border-top: 2px dotted darkblue; margin-left: auto; margin-right: auto; margin-top: 20px; margin-bottom: 20px; \x7d\n"
  ++ "                .hrdotted2 \x7b border-top: 4px dashed blue; margin-left: auto; margin-right: auto; margin-top: 20px; margin-bottom: 20px; \x7d\n"
  ++ "                .hrdotted3 \x7b border-top: 2px dotted #1e3f5a; margin-left: auto; margin-right: auto; margin-top: 20px; margin-bottom: 20px; width: 40%; \x7d\n"
  ++ "                .hrdotteds \x7b border-top: 2px dotted darkblue; margin-left: auto; margin-right: auto; margin-bottom: 20px; \x7d\n"
  ++ "                .hrdottede \x7b border-top: 2px dotted darkblue; margin-left: auto; margin-right: auto; margin-top: 20px; \x7d\n"
  ++ "                .issue \x7b margin-bottom: 30px; padding: 15px; border-left: 5px solid #007BFF; background-color: #f9f9f9; \x7d\n"
  ++ "                .issue-header \x7b font-weight: bold; color: #1e3f5a;font-size: 20px; margin-bottom: 10px; \x7d\n"
  ++ "                .issue-header a \x7b color: #007BFF; text-decoration: none; font-weight: bold; \x7d\n"
  ++ "                .issue-detail, .description \x7b margin-left: 20px; \x7d\n"
  ++ "                .priority \x7b padding: 3px; border-radius: 4px; color: #fff; font-weight: normal; \x7d\n"
  ++ "                .High, .Highest \x7b background-color: #DC3545; \x7d\n"
  ++ "                .Medium \x7b background-color: #FFC107; \x7d\n"
  ++ "                .Low, .Lowest \x7b background-color: #28A745; \x7d\n"
  ++ "                .description-text \x7b margin-top: 10px; padding-left: 20px; color: #1e3f5a; /* Additional indentation for the description content */ \x7d\n"
  ++ "                .label \x7b font-weight: bold; padding-right: 30px \x7d\n"
  ++ "                .header-logo \x7b text-align: center; margin-bottom: 20px; \x7d\n"
  ++ "                .header-text \x7b text-align: center; font-size: 16px; margin-top: 0px; color: #001F3F; font-weight: bold; text-transform: uppercase; \x7d\n"
  ++ "            </style>\n"
  ++ "        </head>\n"
  ++ "        <body>\n"
  ++ "            <!-- Logo and report header -->\n"
  ++ "            <div class=\"header-logo\">\n"
  ++ "                <img src=\"https://www.ccasoftware.com/wp-content/uploads/CCA-software-logo.svg\" alt=\"CCA Software Logo\" style=\"max-width: 90px;\">\n"
  ++ "                <div class=\"header-text\">Software</div>\n"
  ++ "            </div>\n"
  ++ "            <div class=\"hrdotted3\"></div>\n"
  ++ "            <h2 style align=\"center\">Unassigned JIRA Issues Report - " ++ current_date ++ "</h2>\n"
  ++ "            <div class=\"hrdotted3\"></div>\n"
  ++ "            <br><br><br>\n"
  ++ "        <!-- End of email body -->\n"
  ++ "        "

/-- The priority span of an issue section: the CSS class attribute is
`priority ` followed by the capitalized priority name, the visible text
is the priority name verbatim (f-string lines 284-286). -/
def prioritySpan (priority_class priority_name : String) : String :=
  "<span class=\"priority " ++ priority_class ++ "\">\n"
  ++ "                                    " ++ priority_name ++ "\n"
  ++ "                                </span>"

/-- The per-issue section text before the priority span (f-string lines
260-283). -/
def sectionBeforePriority (issue_url key summary organization_names : String) : String :=
  "\n"
  ++ "                <!-- Start of issue -->\n"
  ++ "                <div class=\"issue\">\n"
  ++ "                    <!-- Horizontal line -->\n"
  ++ "                    <div class=\"hrdotteds\"></div>\n"
  ++ "                    <!-- Issue header -->\n"
  ++ "                    <div class=\"issue-header\">\n"
  ++ "                        <!-- Issue link -->\n"
  ++ "                        <a href=\"" ++ issue_url ++ "\" target=\"_blank\">" ++ key ++ "</a> - " ++ summary ++ "\n"
  ++ "                    </div>\n"
  ++ "                    <!-- Horizontal line -->\n"
  ++ "                    <div class=\"hrdotted\"></div>\n"
  ++ "                    <br>\n"
  ++ "                    <!-- Issue details table -->\n"
  ++ "                    <table class=\"issue-detail\">\n"
  ++ "                        <!-- Organization(s) -->\n"
  ++ "                        <tr>\n"
  ++ "                            <td class=\"label\">Organization(s):</td>\n"
  ++ "                            <td style=\"padding-right: 10px;\">" ++ organization_names ++ "</td>\n"
  ++ "                        </tr>\n"
  ++ "                        <!-- Priority -->\n"
  ++ "                        <tr>\n"
  ++ "                            <td class=\"label\">Priority:</td>\n"
  ++ "                            <td style=\"padding-right: 10px;\">\n"
  ++ "                                <!-- Priority class and name -->\n"
  ++ "                                "

/-- The per-issue section text after the priority span (f-string lines
287-311). -/
def sectionAfterPriority (reporter description : String) : String :=
  "\n"
  ++ "                            </td>\n"
  ++ "                        </tr>\n"
  ++ "                        <!-- Reporter -->\n"
  ++ "                        <tr>\n"
  ++ "                            <td class=\"label\">Reporter:</td>\n"
  ++ "                            <td style=\"padding-right: 10px;\">\n"
  ++ "                                " ++ reporter ++ "\n"
  ++ "                            </td>\n"
  ++ "                        </tr>\n"
  ++ "                    </table>\n"
  ++ "                    <!-- Horizontal line -->\n"
  ++ "                    <div class=\"hrdotted\"></div>\n"
  ++ "                    <br>\n"
  ++ "                    <!-- Issue description -->\n"
  ++ "                    <div class=\"description\">\n"
  ++ "                        <!-- Description label -->\n"
  ++ "                        <span class=\"label\">Description:</span>\n"
  ++ "                        <!-- Description text -->\n"
  ++ "                        <div class=\"description-text\">" ++ description ++ "</div>\n"
  ++ "                    </div>\n"
  ++ "                    <!-- Horizontal line -->\n"
  ++ "                    <div class=\"hrdottede\"></div>\n"
  ++ "                </div>\n"
  ++ "                <!-- End of issue -->\n"
  ++ "            "

/-- The whole per-issue section the loop appends to `html_body`. -/
def issueSectionHtml (issue_url key summary organization_names priority_class
    priority_name reporter description : String) : String :=
  sectionBeforePriority issue_url key summary organization_names
  ++ prioritySpan priority_class priority_name
  ++ sectionAfterPriority reporter description

/-- One iteration of the issue loop in `generate_email_body`: the
config lookup of `jira_ticket_base_url` and the description `.replace`
can raise; everything else is total. -/
def renderIssue (config : Config) (issue : Issue) : Except String String :=
  match configGet config "jira" "jira_ticket_base_url" with
  | Except.error e => Except.error e
  | Except.ok base =>
    match renderDescription issue.description with
    | Except.error e => Except.error e
    | Except.ok description =>
      Except.ok (issueSectionHtml (base ++ "/" ++ issue.key) issue.key issue.summary
        (organizationNames issue.organization) (pyCapitalize issue.priorityName)
        issue.priorityName issue.reporterDisplayName description)

/-- The issue loop: sections in input order; the first raising issue
aborts the whole rendering (the Python exception propagates). -/
def renderSections (config : Config) : List Issue → Except String (List String)
  | [] => Except.ok []
  | i :: is =>
    match renderIssue config i with
    | Except.error e => Except.error e
    | Except.ok s =>
      match renderSections config is with
      | Except.error e => Except.error e
      | Except.ok ss => Except.ok (s :: ss)

/-- `EmailReport.generate_email_body`: fixed header, one section per
issue in input order, closing `</body></html>`. -/
def generateEmailBody (config : Config) (current_date : String)
    (issues : List Issue) : Except String String :=
  match renderSections config issues with
  | Except.error e => Except.error e
  | Except.ok sections =>
    Except.ok (htmlHeader current_date ++ String.join sections ++ "</body></html>")

/-- The five priority levels the stylesheet colors: `.High, .Highest`
urgent, `.Medium` warning, `.Low, .Lowest` normal. -/
def knownPriorityClasses : List String := ["High", "Highest", "Medium", "Low", "Lowest"]

/-- Splits a character list on the space character, keeping empty
pieces, exactly as an HTML class attribute is tokenized (and as
`String.splitOn " "` would). -/
def splitWordsChars : List Char → List (List Char)
  | [] => [[]]
  | c :: cs =>
    if c = ' ' then [] :: splitWordsChars cs
    else
      match splitWordsChars cs with
      | [] => [[c]]
      | w :: ws => (c :: w) :: ws

/-- The whitespace-separated class tokens of an HTML `class` attribute
value: CSS rules such as `.High` match any one token of the attribute,
not the attribute as a whole. -/
def classTokens (attr : String) : List String :=
  (splitWordsChars attr.data).map (fun w => String.mk w)

/-- The `class` attribute value of the priority span,
`priority {priority_class}` with the capitalized priority name
interpolated (f-string line 284). -/
def priorityClassAttr (name : String) : String :=
  "priority " ++ pyCapitalize name

/-- Whether the priority span of an issue with this priority name picks
up one of the five colored CSS classes: its class attribute is
`priority ` followed by the capitalized name, the attribute is
whitespace-tokenized, and styling takes effect exactly when some token
is a styled class (so a multi-word name can carry a styled token even
though the whole capitalized name is not one of the five). -/
def urgencyStyled (name : String) : Bool :=
  (classTokens (priorityClassAttr name)).any (fun t => knownPriorityClasses.contains t)

/-! ## Notifier (`EmailReport.send`) and `main` wiring -/

/-- Command-line arguments of `main`: `--recipient` (required) and
`--cc` (optional, default empty string). -/
structure Args where
  recipient : String
  cc : String
deriving DecidableEq

/-- The headers and body of the message `EmailReport.send` builds. -/
structure EmailMsg where
  subject : String
  fromAddr : String
  toAddr : String
  ccAddr : Option String
  body : String

/-- The observable effects of one `EmailReport.send` run on the SMTP
session resource: how many sessions were opened, how many were
released, and how many messages went out. -/
structure SmtpTrace where
  opened : Nat
  closed : Nat
  sent : Nat
deriving DecidableEq

/-- The `with smtplib.SMTP_SSL(...) as server` block of
`EmailReport.send`: the session opens, the body runs
(`server.login(...)`, then `server.send_message(msg)`), and the
context manager releases the session on both the normal and the
raising path, re-raising any exception. The two Booleans are the
environment's behavior: whether the login step raises and whether the
send step raises. -/
def smtpSessionRun (loginFails sendFails : Bool) : SmtpTrace × Except String Unit :=
  let t1 : SmtpTrace := ⟨1, 0, 0⟩
  let body : SmtpTrace × Except String Unit :=
    if loginFails then (t1, Except.error "SMTPAuthenticationError")
    else if sendFails then (t1, Except.error "SMTPException")
    else (⟨t1.opened, t1.closed, t1.sent + 1⟩, Except.ok ())
  (⟨body.1.opened, body.1.closed + 1, body.1.sent⟩, body.2)

/-- `EmailReport.send`: the body is generated first (a raise there
happens before any session exists), then the one session is opened,
logged in, and the single message sent. -/
def EmailReport.send (config : Config) (current_date : String) (issues : List Issue)
    (loginFails sendFails : Bool) : SmtpTrace × Except String Unit :=
  match generateEmailBody config current_date issues with
  | Except.error e => (⟨0, 0, 0⟩, Except.error e)
  | Except.ok _html_body => smtpSessionRun loginFails sendFails

/-- The message-construction dataflow of `main` and `EmailReport.send`:
validate, take `recipient_email` from `config['email']['recipient']`,
split `--cc` on commas when non-empty, generate the body, and build the
headers (`To` from `recipient_email`, `Cc` joined with `', '` when the
cc list is non-empty). The fetched issue list is a parameter because
the tracker is an external black box. -/
def mainMessage (config : Config) (args : Args) (current_date : String)
    (issues : List Issue) : Except String EmailMsg :=
  match validate config with
  | Except.error e => Except.error e
  | Except.ok _ =>
    match configGet config "email" "recipient" with
    | Except.error e => Except.error e
    | Except.ok recipient_email =>
      let cc_emails : List String := if args.cc == "" then [] else args.cc.splitOn ","
      match generateEmailBody config current_date issues with
      | Except.error e => Except.error e
      | Except.ok html_body =>
        match configGet config "email" "sender" with
        | Except.error e => Except.error e
        | Except.ok sender =>
          Except.ok
            ⟨"Outstanding Unassigned CCA Software JIRA Tickets Report - Date: " ++ current_date,
             sender, recipient_email,
             (if cc_emails.isEmpty then none else some (pyJoin ", " cc_emails)),
             html_body⟩

/-- The pipeline stages `main` reaches, in order. -/
inductive Event where
  | validated
  | fetched
  | emailed
deriving DecidableEq

/-- The stage sequencing of `main`: `ConfigValidator.validate` runs
first and a raise there aborts the run, so the JIRA fetch (the first
network call) is attempted only after validation succeeded. `fetchOk`
is the black-box outcome of the tracker query. -/
def runEvents (config : Config) (fetchOk : Bool) : List Event :=
  match validate config with
  | Except.error _ => []
  | Except.ok _ =>
    Event.validated :: Event.fetched :: (if fetchOk then [Event.emailed] else [])

/-! ## Concrete fixtures used by counterexamples and witnesses -/

/-- A full configuration: both sections, all ten required keys, all
values non-empty. -/
def cFull : Config :=
  [("jira",
    [("server", "https://jira.example.com"),
     ("jira_ticket_base_url", "https://jira.example.com/browse"),
     ("username", "svc"), ("password", "pw")]),
   ("email",
    [("sender", "noreply@example.com"), ("smtp_server", "smtp.example.com"),
     ("smtp_port", "465"), ("smtp_username", "svc"), ("smtp_password", "pw"),
     ("recipient", "ops@example.com")])]

/-- A configuration with both sections and all ten required keys
present, but with an empty value under `email/recipient`. -/
def cFullEmptyRecipient : Config :=
  [("jira",
    [("server", "https://jira.example.com"),
     ("jira_ticket_base_url", "https://jira.example.com/browse"),
     ("username", "svc"), ("password", "pw")]),
   ("email",
    [("sender", "noreply@example.com"), ("smtp_server", "smtp.example.com"),
     ("smtp_port", "465"), ("smtp_username", "svc"), ("smtp_password", "pw"),
     ("recipient", "")])]

/-- An issue whose `description` key is absent. -/
def iAbsentDesc : Issue :=
  ⟨"PROJ-1", "First issue", "High", OrgField.list [some "OrgA", none],
   "Alice Example", DescField.absent⟩

/-- An issue whose `description` key is present with value `null`. -/
def iNullDesc : Issue :=
  ⟨"PROJ-2", "Second issue", "Medium", OrgField.absent, "Bob Example", DescField.null⟩

/-- An issue whose priority name is the case variant `HIGH`, not one of
the five level names verbatim. -/
def iHIGH : Issue :=
  ⟨"PROJ-3", "Case variant priority", "HIGH", OrgField.scalar "OrgC",
   "Carol Example", DescField.str "line1\nline2"⟩

/-- An issue with the unknown priority name `Blocker`. -/
def iBlocker : Issue :=
  ⟨"PROJ-4", "Unknown priority", "Blocker", OrgField.absent,
   "Dave Example", DescField.absent⟩

/-! ## Validator lemmas -/

/-- Success of `validate` is exactly emptiness of the accumulated
missing-settings list. -/
theorem validate_ok_iff (c : Config) :
    validate c = Except.ok () ↔ missingSettings c = [] := by
  unfold validate
  cases hm : missingSettings c with
  | nil => simp
  | cons a l => simp

/-- Unfolds the two-section accumulation of `missingSettings`. -/
theorem missingSettings_def (c : Config) :
    missingSettings c
      = sectionMissing c "jira" jiraKeys ++ (sectionMissing c "email" emailKeys ++ []) := rfl

/-- A section contributes nothing to the missing list exactly when it is
present and carries every required key. -/
theorem sectionMissing_nil_iff (c : Config) (s : String) (ks : List String) :
    sectionMissing c s ks = []
      ↔ ∃ sec, findSection c s = some sec ∧ ∀ k ∈ ks, hasKey sec k = true := by
  unfold sectionMissing
  cases h : findSection c s with
  | none => simp
  | some sec => simp [List.filter_eq_nil_iff]

/-- The per-section boolean of `allRequiredPresent`, characterized. -/
theorem sectionPresentBool_iff (c : Config) (s : String) (ks : List String) :
    (match findSection c s with
     | none => false
     | some sec => ks.all (fun k => hasKey sec k)) = true
      ↔ ∃ sec, findSection c s = some sec ∧ ∀ k ∈ ks, hasKey sec k = true := by
  cases h : findSection c s with
  | none => simp
  | some sec => simp [List.all_eq_true]

/-- `allRequiredPresent`, characterized section by section. -/
theorem allRequiredPresent_iff (c : Config) :
    allRequiredPresent c = true
      ↔ ∀ p ∈ required_settings, ∃ sec, findSection c p.1 = some sec
          ∧ ∀ k ∈ p.2, hasKey sec k = true := by
  unfold allRequiredPresent
  rw [List.all_eq_true]
  constructor
  · intro h p hp
    exact (sectionPresentBool_iff c p.1 p.2).mp (h p hp)
  · intro h p hp
    exact (sectionPresentBool_iff c p.1 p.2).mpr (h p hp)

/-- `validate` succeeds exactly when every required section and key is
present; values are never inspected. -/
theorem validate_ok_iff_present (c : Config) :
    validate c = Except.ok () ↔ allRequiredPresent c = true := by
  rw [validate_ok_iff, missingSettings_def, allRequiredPresent_iff]
  simp only [List.append_eq_nil, sectionMissing_nil_iff, required_settings,
    List.forall_mem_cons, List.forall_mem_nil, and_true]
  tauto

/-- A required section that is absent puts its `Missing section:` line
into the accumulated list. -/
theorem mem_missing_section (c : Config) (s : String) (ks : List String)
    (hmem : (s, ks) ∈ required_settings) (h : findSection c s = none) :
    ("Missing section: " ++ s) ∈ missingSettings c := by
  rw [missingSettings_def]
  simp only [required_settings, List.mem_cons, List.mem_singleton, Prod.mk.injEq,
    List.not_mem_nil, or_false] at hmem
  rcases hmem with ⟨hs, _⟩ | ⟨hs, _⟩
  · subst hs
    apply List.mem_append_left
    unfold sectionMissing
    rw [h]
    simp
  · subst hs
    apply List.mem_append_right
    apply List.mem_append_left
    unfold sectionMissing
    rw [h]
    simp

/-- A required key absent from a present section puts its
`Missing setting:` line into the accumulated list. -/
theorem mem_missing_key (c : Config) (s : String) (ks : List String)
    (sec : List (String × String)) (k : String)
    (hmem : (s, ks) ∈ required_settings) (h : findSection c s = some sec)
    (hk : k ∈ ks) (hnk : hasKey sec k = false) :
    ("Missing setting: " ++ s ++ "/" ++ k) ∈ missingSettings c := by
  rw [missingSettings_def]
  have hin : ("Missing setting: " ++ s ++ "/" ++ k) ∈ sectionMissing c s ks := by
    unfold sectionMissing
    rw [h]
    exact List.mem_map_of_mem _ (List.mem_filter.mpr ⟨hk, by simp [hnk]⟩)
  simp only [required_settings, List.mem_cons, List.mem_singleton, Prod.mk.injEq,
    List.not_mem_nil, or_false] at hmem
  rcases hmem with ⟨hs, hks⟩ | ⟨hs, hks⟩
  · subst hs; subst hks
    exact List.mem_append_left _ hin
  · subst hs; subst hks
    exact List.mem_append_right _ (List.mem_append_left _ hin)

/-! ## Renderer lemmas -/

/-- Rendering one issue succeeds whenever the ticket base URL is
configured and the description is not a present `null`. -/
theorem renderIssue_ok (cfg : Config) (i : Issue) (b : String)
    (hb : configGet cfg "jira" "jira_ticket_base_url" = Except.ok b)
    (hd : i.description ≠ DescField.null) :
    ∃ s, renderIssue cfg i = Except.ok s := by
  unfold renderIssue
  rw [hb]
  cases h : i.description with
  | absent => exact ⟨_, rfl⟩
  | null => exact absurd h hd
  | str s => exact ⟨_, rfl⟩

/-- The issue loop succeeds when each issue renders, producing exactly
one section per issue in the input's order. -/
theorem renderSections_ok (cfg : Config) (issues : List Issue)
    (h : ∀ i ∈ issues, ∃ s, renderIssue cfg i = Except.ok s) :
    ∃ ss, renderSections cfg issues = Except.ok ss
      ∧ List.Forall₂ (fun i s => renderIssue cfg i = Except.ok s) issues ss := by
  induction issues with
  | nil => exact ⟨[], rfl, List.Forall₂.nil⟩
  | cons i is ih =>
    obtain ⟨s, hs⟩ := h i (List.mem_cons_self i is)
    obtain ⟨ss, hss, hf⟩ := ih (fun j hj => h j (List.mem_cons_of_mem i hj))
    exact ⟨s :: ss, by simp [renderSections, hs, hss], List.Forall₂.cons hs hf⟩

/-- Left cancellation for string concatenation. -/
theorem str_append_left_cancel (a b c : String) (h : a ++ b = a ++ c) : b = c := by
  apply String.ext
  have h2 := congrArg String.data h
  rw [String.data_append, String.data_append] at h2
  exact List.append_cancel_left h2

/-- Splitting a character list that starts with the eight letters of
`priority` and a space peels off that word as the first token. -/
theorem splitWordsChars_priority (l : List Char) :
    splitWordsChars ('p' :: 'r' :: 'i' :: 'o' :: 'r' :: 'i' :: 't' :: 'y' :: ' ' :: l)
      = ('p' :: 'r' :: 'i' :: 'o' :: 'r' :: 'i' :: 't' :: 'y' :: []) :: splitWordsChars l := rfl

/-- The tokens of the priority span's class attribute are the fixed
token `priority` followed by the tokens of the capitalized name. -/
theorem classTokens_priorityClassAttr (name : String) :
    classTokens (priorityClassAttr name)
      = "priority" :: classTokens (pyCapitalize name) := by
  unfold classTokens priorityClassAttr
  have hdata : ("priority " ++ pyCapitalize name).data
      = 'p' :: 'r' :: 'i' :: 'o' :: 'r' :: 'i' :: 't' :: 'y' :: ' ' :: (pyCapitalize name).data := by
    rw [String.data_append]
    rfl
  rw [hdata, splitWordsChars_priority]
  rfl

/-- If no token of the capitalized priority name is a styled class, the
whole class attribute carries no styled token (the only other token is
the literal `priority`, which is not a styled class). -/
theorem urgencyStyled_eq_false_of (name : String)
    (h : ∀ t ∈ classTokens (pyCapitalize name), knownPriorityClasses.contains t = false) :
    urgencyStyled name = false := by
  unfold urgencyStyled
  rw [classTokens_priorityClassAttr]
  have h1 : knownPriorityClasses.contains "priority" = false := by decide
  rw [List.any_cons, h1, Bool.false_or]
  cases hx : (classTokens (pyCapitalize name)).any (fun t => knownPriorityClasses.contains t) with
  | false => rfl
  | true =>
    obtain ⟨t, ht, hp⟩ := List.any_eq_true.mp hx
    rw [h t ht] at hp
    cases hp

/-! ## Claim theorems -/

/-- C1 (counterexample): the claim that `generate_email_body` has no
failure mode is false as stated: for an issue whose `description` key is
present with value `null`, `dict.get` returns `None` (the default only
covers an absent key) and the `.replace` call raises `AttributeError`,
aborting the rendering. -/
theorem c1_null_description_raises :
    generateEmailBody cFull "2024-01-01" [iNullDesc]
      = Except.error "AttributeError: NoneType object has no attribute replace" := rfl

/-- C1 (amended): for every issue list in which no issue has a
present-but-null description (absent descriptions are fine), and a
configuration providing the ticket base URL, `generate_email_body`
completes without raising, and an absent description renders as the
placeholder `No description provided` (the newline-to-break conversion
leaves the placeholder unchanged). -/
theorem c1_render_total_amended (cfg : Config) (date : String) (issues : List Issue)
    (b : String) (hb : configGet cfg "jira" "jira_ticket_base_url" = Except.ok b)
    (hd : ∀ i ∈ issues, i.description ≠ DescField.null) :
    (∃ doc, generateEmailBody cfg date issues = Except.ok doc)
    ∧ renderDescription DescField.absent = Except.ok "No description provided" := by
  refine ⟨?_, rfl⟩
  obtain ⟨ss, hss, _⟩ :=
    renderSections_ok cfg issues (fun i hi => renderIssue_ok cfg i b hb (hd i hi))
  exact ⟨htmlHeader date ++ String.join ss ++ "</body></html>",
    by simp [generateEmailBody, hss]⟩

/-- C1 (witness): the amended theorem applied to a concrete issue with
an absent description. -/
theorem c1_render_total_witness :
    (∃ doc, generateEmailBody cFull "2024-06-01" [iAbsentDesc] = Except.ok doc)
    ∧ renderDescription DescField.absent = Except.ok "No description provided" :=
  c1_render_total_amended cFull "2024-06-01" [iAbsentDesc]
    "https://jira.example.com/browse" rfl
    (by intro i hi; rw [List.mem_singleton] at hi; subst hi; decide)

/-- C2 (counterexample): the claim that a successful `validate`
guarantees non-empty values is false: a configuration with every
required section and key present but an empty string under
`email/recipient` passes `validate` unchanged, so the spec's
"present and non-empty" invariant does not hold after validation. -/
theorem c2_empty_value_passes_validate :
    validate cFullEmptyRecipient = Except.ok ()
    ∧ configGet cFullEmptyRecipient "email" "recipient" = Except.ok ""
    ∧ allRequiredPresentNonEmpty cFullEmptyRecipient = false :=
  ⟨rfl, rfl, by decide⟩

/-- C2 (amended): after `validate` succeeds, the two required sections
(`jira` and `email`) and all ten required keys are present (their values
may still be empty, which `validate` never checks), and in `main` this
presence holds whenever the JIRA fetch — the first network call — is
attempted, because `validate` runs strictly before it and a validation
failure aborts the run. -/
theorem c2_presence_before_fetch_amended (c : Config) (fetchOk : Bool)
    (h : Event.fetched ∈ runEvents c fetchOk) : allRequiredPresent c = true := by
  revert h
  unfold runEvents
  cases hv : validate c with
  | error e => intro h; exact absurd h (List.not_mem_nil _)
  | ok u =>
    intro _
    cases u
    exact (validate_ok_iff_present c).mp hv

/-- C2 (witness): the amended theorem applied to a concrete run whose
trace contains the fetch. -/
theorem c2_presence_before_fetch_witness : allRequiredPresent cFull = true :=
  c2_presence_before_fetch_amended cFull true (by decide)

/-- C3 (confirmed): whenever at least one required section or key is
missing, `validate` fails with the single aggregated error message,
and the missing list contains `Missing section: X` for every missing
section and `Missing setting: X/Y` for every missing key of a present
section — it does not stop at the first problem. -/
theorem c3_validate_reports_all_missing (c : Config)
    (h : (∃ s ks, (s, ks) ∈ required_settings ∧ findSection c s = none)
       ∨ (∃ s ks sec k, (s, ks) ∈ required_settings ∧ findSection c s = some sec
            ∧ k ∈ ks ∧ hasKey sec k = false)) :
    validate c = Except.error
        ("Configuration validation failed:\n" ++ pyJoin "\n" (missingSettings c))
    ∧ (∀ s ks, (s, ks) ∈ required_settings → findSection c s = none →
         ("Missing section: " ++ s) ∈ missingSettings c)
    ∧ (∀ s ks sec k, (s, ks) ∈ required_settings → findSection c s = some sec →
         k ∈ ks → hasKey sec k = false →
         ("Missing setting: " ++ s ++ "/" ++ k) ∈ missingSettings c) := by
  have hne : missingSettings c ≠ [] := by
    rcases h with ⟨s, ks, hmem, hs⟩ | ⟨s, ks, sec, k, hmem, hs, hk, hnk⟩
    · exact List.ne_nil_of_mem (mem_missing_section c s ks hmem hs)
    · exact List.ne_nil_of_mem (mem_missing_key c s ks sec k hmem hs hk hnk)
  refine ⟨?_, fun s ks hmem hs => mem_missing_section c s ks hmem hs,
          fun s ks sec k hmem hs hk hnk => mem_missing_key c s ks sec k hmem hs hk hnk⟩
  have hemp : (missingSettings c).isEmpty = false := by
    cases hm : missingSettings c with
    | nil => exact absurd hm hne
    | cons a l => rfl
  simp [validate, hemp]

/-- C3 (witness): the theorem applied to the empty configuration, where
both required sections are missing and both are reported together. -/
theorem c3_validate_reports_all_missing_witness :
    validate ([] : Config) = Except.error
        ("Configuration validation failed:\n" ++ pyJoin "\n" (missingSettings ([] : Config)))
    ∧ ("Missing section: " ++ "jira") ∈ missingSettings ([] : Config)
    ∧ ("Missing section: " ++ "email") ∈ missingSettings ([] : Config) := by
  have h := c3_validate_reports_all_missing ([] : Config)
    (Or.inl ⟨"jira", jiraKeys, by decide, rfl⟩)
  exact ⟨h.1, h.2.1 "jira" jiraKeys (by decide) rfl, h.2.1 "email" emailKeys (by decide) rfl⟩

/-- C4 (code bug): `main` declares `--recipient` as a required argument
("The email address of the recipient") but then builds the message with
`recipient_email = config['email']['recipient']`, so the `To` header is
the configuration's recipient, not the one supplied on the command
line: here the operator passes `cli@example.com` and the message goes
to `ops@example.com`. -/
theorem c4_to_header_ignores_cli_recipient :
    (mainMessage cFull ⟨"cli@example.com", ""⟩ "2024-01-01" []).map (fun m => m.toAddr)
      = Except.ok "ops@example.com"
    ∧ (Args.mk "cli@example.com" "").recipient = "cli@example.com"
    ∧ ("ops@example.com" : String) ≠ "cli@example.com" :=
  ⟨rfl, rfl, by decide⟩

/-- C5 (counterexample): the claim that an issue whose priority name is
not one of the five known levels renders unstyled is false as stated:
`HIGH` is not one of the five level names, yet `capitalize()` turns it
into the styled class `High`, so the urgent color class takes effect;
likewise the multi-word `HIGH alert` capitalizes to `High alert`, also
outside the five names, and its class attribute still carries the
styled token `High`. -/
theorem c5_case_variant_styled :
    ¬ ("HIGH" ∈ knownPriorityClasses)
    ∧ urgencyStyled "HIGH" = true
    ∧ pyCapitalize "HIGH" = "High"
    ∧ ¬ ("High alert" ∈ knownPriorityClasses)
    ∧ pyCapitalize "HIGH alert" = "High alert"
    ∧ urgencyStyled "HIGH alert" = true
    ∧ (∃ s, renderIssue cFull iHIGH = Except.ok s) :=
  ⟨by decide, by decide, rfl, by decide, rfl, by decide, ⟨_, rfl⟩⟩

/-- C5 (amended): for every issue none of whose capitalized priority
name's whitespace-separated tokens is one of the five styled classes,
rendering completes without error (given a configured base URL and a
description that is not a present `null`) and no urgency color class
takes effect on the span's class attribute. The token-level hypothesis
is needed because the class attribute is whitespace-tokenized: a
multi-word name such as `HIGH alert` capitalizes to `High alert`,
outside the five class names, yet its token `High` is styled. -/
theorem c5_unknown_priority_unstyled_amended (cfg : Config) (i : Issue) (b : String)
    (hb : configGet cfg "jira" "jira_ticket_base_url" = Except.ok b)
    (hd : i.description ≠ DescField.null)
    (hp : ∀ t ∈ classTokens (pyCapitalize i.priorityName),
            knownPriorityClasses.contains t = false) :
    (∃ s, renderIssue cfg i = Except.ok s) ∧ urgencyStyled i.priorityName = false :=
  ⟨renderIssue_ok cfg i b hb hd, urgencyStyled_eq_false_of i.priorityName hp⟩

/-- C5 (witness): the amended theorem applied to a concrete issue with
the unknown priority name `Blocker`. -/
theorem c5_unknown_priority_unstyled_witness :
    (∃ s, renderIssue cFull iBlocker = Except.ok s)
    ∧ urgencyStyled iBlocker.priorityName = false :=
  c5_unknown_priority_unstyled_amended cFull iBlocker
    "https://jira.example.com/browse" rfl (by decide) (by decide)

/-- C6 (confirmed): the rendered organization field is `N/A` when the
custom field is absent, the scalar value verbatim when it is a scalar,
and for a list the entries' names joined with `, `, each entry lacking
a name contributing `Unknown` (shown by the empty-list value and the
head-tail recurrence of the join). -/
theorem c6_organization_rendering :
    organizationNames OrgField.absent = "N/A"
    ∧ (∀ s, organizationNames (OrgField.scalar s) = s)
    ∧ organizationNames (OrgField.list []) = ""
    ∧ (∀ (o : Option String) (os : List (Option String)),
        organizationNames (OrgField.list (o :: os))
          = (if os.isEmpty then o.getD "Unknown"
             else o.getD "Unknown" ++ ", " ++ organizationNames (OrgField.list os))) := by
  refine ⟨rfl, fun s => rfl, rfl, fun o os => ?_⟩
  cases os with
  | nil => rfl
  | cons o2 os2 => rfl

/-- C7 (confirmed): the empty issue list renders the fixed header with
no issue sections, and for every issue list whose issues all render,
the document is the header followed by exactly one section per issue,
in the input's order (the sections are in `Forall₂` correspondence with
the issues, hence same count, none dropped, none reordered), followed
by the closing tags. -/
theorem c7_order_preserved :
    (∀ (cfg : Config) (date : String),
       generateEmailBody cfg date [] = Except.ok (htmlHeader date ++ "" ++ "</body></html>"))
    ∧ ∀ (cfg : Config) (date : String) (issues : List Issue),
        (∀ i ∈ issues, ∃ s, renderIssue cfg i = Except.ok s) →
        ∃ sections,
          List.Forall₂ (fun i s => renderIssue cfg i = Except.ok s) issues sections
          ∧ sections.length = issues.length
          ∧ generateEmailBody cfg date issues
              = Except.ok (htmlHeader date ++ String.join sections ++ "</body></html>") := by
  constructor
  · intro cfg date
    rfl
  · intro cfg date issues h
    obtain ⟨ss, hss, hf⟩ := renderSections_ok cfg issues h
    exact ⟨ss, hf, (List.Forall₂.length_eq hf).symm, by simp [generateEmailBody, hss]⟩

/-- C7 (witness): the theorem applied to a concrete two-issue list. -/
theorem c7_order_preserved_witness :
    ∃ sections,
      List.Forall₂ (fun i s => renderIssue cFull i = Except.ok s) [iAbsentDesc, iHIGH] sections
      ∧ sections.length = [iAbsentDesc, iHIGH].length
      ∧ generateEmailBody cFull "2024-07-01" [iAbsentDesc, iHIGH]
          = Except.ok (htmlHeader "2024-07-01" ++ String.join sections ++ "</body></html>") := by
  apply c7_order_preserved.2 cFull "2024-07-01" [iAbsentDesc, iHIGH]
  intro i hi
  rw [List.mem_cons, List.mem_singleton] at hi
  rcases hi with hi | hi <;> subst hi <;> exact ⟨_, rfl⟩

/-- C8 (confirmed): across all environment behaviors — body generation
raising before any session exists, the login step raising, the send
step raising, or full success — `EmailReport.send` sends at most one
message and every opened mail session is released before the call
returns or propagates its error (the `with` block's context manager
closes the session on both exit paths). -/
theorem c8_session_released (config : Config) (current_date : String)
    (issues : List Issue) (loginFails sendFails : Bool) :
    (EmailReport.send config current_date issues loginFails sendFails).1.sent ≤ 1
    ∧ (EmailReport.send config current_date issues loginFails sendFails).1.closed
        = (EmailReport.send config current_date issues loginFails sendFails).1.opened := by
  unfold EmailReport.send
  cases hg : generateEmailBody config current_date issues with
  | error e => exact ⟨Nat.zero_le 1, rfl⟩
  | ok b => cases loginFails <;> cases sendFails <;> simp [smtpSessionRun]

/-- C9 (confirmed): any configuration in which both required sections
and all required keys are present passes `validate`, regardless of the
values stored under the keys — `validate` never inspects a value. -/
theorem c9_validate_succeeds_when_present (c : Config)
    (h : allRequiredPresent c = true) : validate c = Except.ok () :=
  (validate_ok_iff_present c).mpr h

/-- C9 (witness): the theorem applied to a configuration whose
`email/recipient` value is the empty string — all keys present, one
value plainly not a usable address, and `validate` still succeeds. -/
theorem c9_validate_succeeds_witness : validate cFullEmptyRecipient = Except.ok () :=
  c9_validate_succeeds_when_present cFullEmptyRecipient (by decide)

/-- C10 (confirmed): every successfully rendered issue section embeds
the priority span whose CSS class is the `capitalize()`d priority name
while the displayed text is the name verbatim; consequently the case
variants `HIGH` and `high` pick up the known `High` styling, the
multi-word differently-cased name `vERY high` yields the class
`Very high` (distinct from its verbatim display) with no styling, and
whenever capitalization changes the name, the class attribute differs
from the attribute the verbatim name would give. -/
theorem c10_priority_class_capitalize :
    (∀ (cfg : Config) (i : Issue) (s : String),
        renderIssue cfg i = Except.ok s →
        ∃ pre post,
          s = pre ++ prioritySpan (pyCapitalize i.priorityName) i.priorityName ++ post)
    ∧ urgencyStyled "HIGH" = true
    ∧ urgencyStyled "high" = true
    ∧ pyCapitalize "vERY high" = "Very high"
    ∧ urgencyStyled "vERY high" = false
    ∧ (∀ name, pyCapitalize name ≠ name →
        ("priority " ++ pyCapitalize name) ≠ ("priority " ++ name)) := by
  refine ⟨?_, by decide, by decide, rfl, by decide,
    fun name h hc => h (str_append_left_cancel _ _ _ hc)⟩
  intro cfg i s
  unfold renderIssue
  cases hg : configGet cfg "jira" "jira_ticket_base_url" with
  | error e => intro h; cases h
  | ok b =>
    cases hr : renderDescription i.description with
    | error e => intro h; cases h
    | ok d =>
      intro h
      injection h with h2
      exact ⟨sectionBeforePriority (b ++ "/" ++ i.key) i.key i.summary
          (organizationNames i.organization),
        sectionAfterPriority i.reporterDisplayName d, h2.symm⟩

/-- C10 (witness): the theorem's span decomposition applied to the
concrete rendered section of an issue with priority name `HIGH`. -/
theorem c10_priority_class_capitalize_witness :
    ∃ s, renderIssue cFull iHIGH = Except.ok s
      ∧ ∃ pre post,
        s = pre ++ prioritySpan (pyCapitalize iHIGH.priorityName) iHIGH.priorityName ++ post :=
  ⟨_, rfl, c10_priority_class_capitalize.1 cFull iHIGH _ rfl⟩
